import Mathlib

/-!
# Verification of the SmartSpend expense-tracker core

Shallow embedding of the aggregation logic, session-state transitions and
the external-service client of the expense tracker (source files
`types.ts`, `constants` module, the `App` component and
`services/geminiService`), followed by theorems settling the frozen claims.

Conventions of the embedding:
* JavaScript numbers carrying transaction amounts are modelled as exact
  integers (`Int`); the claims are about arithmetic conservation and
  ordering, not about floating-point rounding.
* The JavaScript object `Record<string, ExpenseSummary>` keyed by category
  label preserves insertion order of its (non-numeric) string keys, so it
  is embedded as an association list in first-occurrence order.
* `Array.prototype.sort` with comparator `(a, b) => b.total - a.total` is a
  stable sort placing larger totals first; it is embedded as
  `List.insertionSort` (stable) with the relation `b.total ≤ a.total`.
-/

/-- `Category` enum from `types.ts`: closed enumeration of 8 labels. -/
inductive Category where
  | FOOD
  | SHOPPING
  | HEALTH
  | TRANSPORT
  | UTILITIES
  | ENTERTAINMENT
  | HOUSING
  | MISC
deriving DecidableEq, Repr

/-- The string value of each `Category` enum member (`types.ts`). -/
def Category.label : Category → String
  | .FOOD => "Food & Dining"
  | .SHOPPING => "Clothing & Shopping"
  | .HEALTH => "Health & Wellness"
  | .TRANSPORT => "Travel & Transport"
  | .UTILITIES => "Utilities & Bills"
  | .ENTERTAINMENT => "Entertainment"
  | .HOUSING => "Housing & Rent"
  | .MISC => "Miscellaneous"

/-- `CATEGORY_COLORS` record from the constants module. -/
def CATEGORY_COLORS : Category → String
  | .FOOD => "#F87171"
  | .SHOPPING => "#60A5FA"
  | .HEALTH => "#34D399"
  | .TRANSPORT => "#FBBF24"
  | .UTILITIES => "#A78BFA"
  | .ENTERTAINMENT => "#F472B6"
  | .HOUSING => "#FB923C"
  | .MISC => "#94A3B8"

/-- `Transaction` interface from `types.ts`. Amounts are signed numbers,
modelled as exact integers. -/
structure Transaction where
  id : String
  date : String
  merchant : String
  amount : Int
  category : Category
  originalDescription : String
deriving DecidableEq, Repr

/-- `ExpenseSummary` interface from `types.ts`. -/
structure ExpenseSummary where
  category : Category
  total : Int
  count : Nat
  color : String
deriving DecidableEq, Repr

/-- One step of the `transactions.forEach` loop in `categorySummary`
(App component): if the category already has an entry, add the amount and
bump the count in place; otherwise append a fresh entry (created with
`total: 0, count: 0` and immediately updated, hence `t.amount` / `1`).
The JavaScript record keyed by the category label string keeps keys in
insertion order, embedded here as an association list. -/
def addTxn : List ExpenseSummary → Transaction → List ExpenseSummary
  | [], t => [⟨t.category, t.amount, 1, CATEGORY_COLORS t.category⟩]
  | s :: rest, t =>
    if s.category = t.category then
      { s with total := s.total + t.amount, count := s.count + 1 } :: rest
    else
      s :: addTxn rest t

/-- The grouping phase of `categorySummary`: the `forEach` fold over the
transaction list, starting from the empty record. -/
def groupByCategory (ts : List Transaction) : List ExpenseSummary :=
  ts.foldl addTxn []

/-- The comparator `(a, b) => b.total - a.total` of `categorySummary`,
as the order relation "a may come before b". -/
def summaryOrder (a b : ExpenseSummary) : Prop :=
  b.total ≤ a.total

instance : DecidableRel summaryOrder := fun a b =>
  inferInstanceAs (Decidable (b.total ≤ a.total))

/-- `categorySummary` from the App component: group the transactions by
category, then sort the summaries by total descending
(`Object.values(summary).sort((a, b) => b.total - a.total)`). -/
def categorySummary (ts : List Transaction) : List ExpenseSummary :=
  List.insertionSort summaryOrder (groupByCategory ts)

/-- `totalSpent` from the App component:
`transactions.reduce((sum, t) => sum + t.amount, 0)`. -/
def totalSpent (ts : List Transaction) : Int :=
  ts.foldl (fun sum t => sum + t.amount) 0

/-- `chartData` from the App component. -/
def chartData (ts : List Transaction) : List (String × Int) :=
  (categorySummary ts).map (fun s => (s.category.label, s.total))

/-! ## Session state and its transitions (App component) -/

/-- `AnalysisResult` interface from `types.ts`. -/
structure AnalysisResult where
  transactions : List Transaction
  totalAmount : Int
  currency : String
deriving DecidableEq, Repr

/-- The React state of the `App` component: the accumulated transaction
list, the loading flag, the error message (`null` = `none`) and the pasted
text. -/
structure SessionState where
  transactions : List Transaction
  loading : Bool
  error : Option String
  pastedText : String
deriving DecidableEq, Repr

/-- `processAnalysis` from the App component, with the awaited outcome of
`analyzeStatement` made explicit: set loading and clear the error, then on
success append `result.transactions` to the previous list
(`setTransactions(prev => [...prev, ...result.transactions])`), on failure
record `err.message || "An error occurred during analysis."`; in both
cases `finally` ends the loading state. The returned state is the one
after the whole async cycle. -/
def processAnalysis (s : SessionState) (outcome : Except String AnalysisResult) :
    SessionState :=
  let s1 : SessionState := { s with loading := true, error := none }
  match outcome with
  | .ok result =>
      { s1 with
          transactions := s1.transactions ++ result.transactions,
          loading := false }
  | .error msg =>
      { s1 with
          error := some (if msg = "" then "An error occurred during analysis." else msg),
          loading := false }

/-- `clearData` from the App component: only when the user confirms
(`window.confirm`) are the transactions, pasted text and error cleared. -/
def clearData (confirmed : Bool) (s : SessionState) : SessionState :=
  if confirmed then
    { s with transactions := [], pastedText := "", error := none }
  else
    s

/-- The two input payload shapes `analyzeStatement` accepts:
raw pasted text, or base64 image data with a MIME type. -/
inductive AnalyzeInput where
  | text (s : String)
  | image (data : String) (mimeType : String)
deriving DecidableEq, Repr

/-- The file handed to `handleFileUpload`: its data URL as produced by
`FileReader.readAsDataURL` and its MIME type (`file.type`). -/
structure StatementFile where
  dataUrl : String
  mimeType : String
deriving DecidableEq, Repr

/-- JavaScript `String.prototype.trim`: strip whitespace from both ends,
modelled on the character list. -/
def jsTrim (s : String) : String :=
  ⟨((s.data.dropWhile Char.isWhitespace).reverse.dropWhile
      Char.isWhitespace).reverse⟩

/-- `handlePasteSubmit` from the App component: if the pasted text trims
to the empty string (`!pastedText.trim()`), return without issuing any
request; otherwise run `processAnalysis(pastedText)`. The second component
records the request that was issued, if any. -/
def handlePasteSubmit (s : SessionState) (outcome : Except String AnalysisResult) :
    SessionState × Option AnalyzeInput :=
  if jsTrim s.pastedText = "" then
    (s, none)
  else
    (processAnalysis s outcome, some (.text s.pastedText))

/-- `handleFileUpload` from the App component: with no file selected
(`e.target.files?.[0]` undefined) it returns at once; otherwise the
reader's data URL is split at the comma (`split(',')[1]`) to obtain the
base64 payload and `processAnalysis` runs on it. -/
def handleFileUpload (s : SessionState) (file : Option StatementFile)
    (outcome : Except String AnalysisResult) :
    SessionState × Option AnalyzeInput :=
  match file with
  | none => (s, none)
  | some f =>
      let base64Data := (f.dataUrl.splitOn ",").getD 1 ""
      (processAnalysis s outcome, some (.image base64Data f.mimeType))

/-! ## The external-service client (`services/geminiService`) -/

/-- JSON values, the possible results of the platform `JSON.parse` on the
service's response text. -/
inductive Json where
  | null
  | bool (b : Bool)
  | num (n : Int)
  | str (s : String)
  | arr (items : List Json)
  | obj (fields : List (String × Json))

/-- What the `try` block of `analyzeStatement` observes, with the two
platform boundaries (the `ai.models.generateContent` call and
`JSON.parse(response.text)`) made explicit:
* `callError`: the external call threw (network or service error);
* `unparseable`: the call returned but its text is not valid JSON, so
  `JSON.parse` threw;
* `parsed j`: `JSON.parse` succeeded with the value `j`. -/
inductive ParsedResponse where
  | callError
  | unparseable
  | parsed (j : Json)

/-- The fixed message of the error thrown by the `catch` block of
`analyzeStatement`. -/
def analysisFailureMessage : String :=
  "Failed to analyze statement. Please ensure the input is clear."

/-- `analyzeStatement` from `services/geminiService`, after the request is
issued: any throw inside the `try` block (a failing call or a failing
`JSON.parse`) is caught and replaced by `new Error(analysisFailureMessage)`;
a successfully parsed value is returned as-is
(`return result as AnalysisResult` — a compile-time cast, no runtime
validation of the payload against the schema). -/
def analyzeStatement : ParsedResponse → Except String Json
  | .callError => .error analysisFailureMessage
  | .unparseable => .error analysisFailureMessage
  | .parsed j => .ok j

/-- Look up a field of a JSON object (association-list lookup). -/
def Json.getField? (j : Json) (key : String) : Option Json :=
  match j with
  | .obj fields => fields.lookup key
  | _ => none

/-- The list of the 8 category labels, `Object.values(Category)`. -/
def categoryLabels : List String :=
  [Category.FOOD, Category.SHOPPING, Category.HEALTH, Category.TRANSPORT,
   Category.UTILITIES, Category.ENTERTAINMENT, Category.HOUSING,
   Category.MISC].map Category.label

/-- Conformance of one transaction item to the `responseSchema` constant
of `services/geminiService`: the fields `id`, `date`, `merchant`,
`amount`, `category` are required, with `category` drawn from the closed
enumeration (`enum: Object.values(Category)`);
`originalDescription` is a string when present. -/
def isValidTransactionJson (j : Json) : Bool :=
  (match j.getField? "id" with | some (.str _) => true | _ => false) &&
  (match j.getField? "date" with | some (.str _) => true | _ => false) &&
  (match j.getField? "merchant" with | some (.str _) => true | _ => false) &&
  (match j.getField? "amount" with | some (.num _) => true | _ => false) &&
  (match j.getField? "category" with
   | some (.str c) => categoryLabels.contains c
   | _ => false)

/-- Conformance of a payload to the top level of the `responseSchema`
constant: `transactions` (an array of conforming items) and `totalAmount`
are required. -/
def conformsToAnalysisResult (j : Json) : Bool :=
  (match j.getField? "transactions" with
   | some (.arr items) => items.all isValidTransactionJson
   | _ => false) &&
  (match j.getField? "totalAmount" with | some (.num _) => true | _ => false)

/-! ## Invariants of the aggregation -/

/-- Each step of the grouping loop adds the transaction's amount to the
sum of the `total` fields. -/
theorem sumTotals_addTxn (acc : List ExpenseSummary) (t : Transaction) :
    ((addTxn acc t).map ExpenseSummary.total).sum =
      (acc.map ExpenseSummary.total).sum + t.amount := by
  induction acc with
  | nil => simp [addTxn]
  | cons s rest ih =>
      by_cases h : s.category = t.category
      · simp [addTxn, h]
        ring
      · simp [addTxn, h, ih]
        ring

/-- Each step of the grouping loop increases the sum of the `count`
fields by one. -/
theorem sumCounts_addTxn (acc : List ExpenseSummary) (t : Transaction) :
    ((addTxn acc t).map ExpenseSummary.count).sum =
      (acc.map ExpenseSummary.count).sum + 1 := by
  induction acc with
  | nil => simp [addTxn]
  | cons s rest ih =>
      by_cases h : s.category = t.category
      · simp [addTxn, h]
        ring
      · simp [addTxn, h, ih]
        ring

/-- Fold form of `sumTotals_addTxn` over the whole transaction list. -/
theorem sumTotals_foldl (ts : List Transaction) (acc : List ExpenseSummary) :
    (((ts.foldl addTxn acc)).map ExpenseSummary.total).sum =
      (acc.map ExpenseSummary.total).sum + (ts.map Transaction.amount).sum := by
  induction ts generalizing acc with
  | nil => simp
  | cons t ts ih =>
      rw [List.foldl_cons, ih, sumTotals_addTxn]
      simp
      ring

/-- Fold form of `sumCounts_addTxn` over the whole transaction list. -/
theorem sumCounts_foldl (ts : List Transaction) (acc : List ExpenseSummary) :
    (((ts.foldl addTxn acc)).map ExpenseSummary.count).sum =
      (acc.map ExpenseSummary.count).sum + ts.length := by
  induction ts generalizing acc with
  | nil => simp
  | cons t ts ih =>
      rw [List.foldl_cons, ih, sumCounts_addTxn]
      simp
      ring

/-- The `reduce` in `totalSpent` computes the sum of the amounts. -/
theorem totalSpent_eq_sum_amounts (ts : List Transaction) :
    totalSpent ts = (ts.map Transaction.amount).sum := by
  suffices h : ∀ a : Int,
      ts.foldl (fun sum t => sum + t.amount) a = a + (ts.map Transaction.amount).sum by
    simpa [totalSpent] using h 0
  induction ts with
  | nil => simp
  | cons t ts ih =>
      intro a
      simp [ih]
      ring

/-- The final sort of `categorySummary` permutes the grouped summaries. -/
theorem categorySummary_perm (ts : List Transaction) :
    List.Perm (categorySummary ts) (groupByCategory ts) :=
  List.perm_insertionSort summaryOrder (groupByCategory ts)

/-- The categories of the grouping are those already present, with the
transaction's own category appended when it is new. -/
theorem cats_addTxn (acc : List ExpenseSummary) (t : Transaction) :
    (addTxn acc t).map ExpenseSummary.category =
      if t.category ∈ acc.map ExpenseSummary.category then
        acc.map ExpenseSummary.category
      else
        acc.map ExpenseSummary.category ++ [t.category] := by
  induction acc with
  | nil => simp [addTxn]
  | cons s rest ih =>
      by_cases h : s.category = t.category
      · simp [addTxn, h]
      · have h' : ¬t.category = s.category := fun hh => h hh.symm
        by_cases hm : t.category ∈ rest.map ExpenseSummary.category
        · simp [addTxn, h, ih, hm, List.mem_cons, h']
        · simp [addTxn, h, ih, hm, List.mem_cons, h']

/-- Membership in the categories of the full grouping fold. -/
theorem cats_foldl_mem (ts : List Transaction) (acc : List ExpenseSummary)
    (c : Category) :
    (c ∈ (ts.foldl addTxn acc).map ExpenseSummary.category) ↔
      c ∈ acc.map ExpenseSummary.category ∨ c ∈ ts.map Transaction.category := by
  induction ts generalizing acc with
  | nil => simp
  | cons t ts ih =>
      rw [List.foldl_cons, ih, cats_addTxn]
      by_cases hm : t.category ∈ acc.map ExpenseSummary.category
      · simp only [hm, if_true, List.map_cons, List.mem_cons]
        constructor
        · tauto
        · rintro (h1 | h1 | h1)
          · tauto
          · subst h1
            tauto
          · tauto
      · simp only [hm, if_false, List.mem_append, List.mem_singleton,
          List.map_cons, List.mem_cons]
        tauto

/-- Each step of the grouping loop preserves distinctness of the
categories. -/
theorem cats_addTxn_nodup (acc : List ExpenseSummary) (t : Transaction)
    (h : (acc.map ExpenseSummary.category).Nodup) :
    ((addTxn acc t).map ExpenseSummary.category).Nodup := by
  rw [cats_addTxn]
  by_cases hm : t.category ∈ acc.map ExpenseSummary.category
  · simpa [hm]
  · simp only [if_neg hm, List.nodup_append, List.disjoint_singleton]
    exact ⟨h, List.nodup_singleton _, hm⟩

/-- The categories of the full grouping fold are distinct. -/
theorem cats_foldl_nodup (ts : List Transaction) (acc : List ExpenseSummary)
    (h : (acc.map ExpenseSummary.category).Nodup) :
    ((ts.foldl addTxn acc).map ExpenseSummary.category).Nodup := by
  induction ts generalizing acc with
  | nil => exact h
  | cons t ts ih => exact ih (addTxn acc t) (cats_addTxn_nodup acc t h)

/-! ## Sample data (the scenario of the spec's testable properties) -/

/-- Sample transaction: 500 in Food & Dining. -/
def sampleFood1 : Transaction :=
  ⟨"t1", "2024-01-01", "Swiggy", 500, .FOOD, "SWIGGY ORDER 1"⟩

/-- Sample transaction: 1200 in Clothing & Shopping. -/
def sampleShopping : Transaction :=
  ⟨"t2", "2024-01-02", "Flipkart", 1200, .SHOPPING, "FLIPKART ORDER"⟩

/-- Sample transaction: 300 in Food & Dining. -/
def sampleFood2 : Transaction :=
  ⟨"t3", "2024-01-03", "Zomato", 300, .FOOD, "ZOMATO ORDER"⟩

/-- The sample transaction list of the spec's scenario. -/
def sampleList : List Transaction :=
  [sampleFood1, sampleShopping, sampleFood2]

/-! ## Claims about the aggregation -/

/-- C1: for every non-empty transaction list, the sum of the `total`
fields over all summaries produced by `categorySummary` equals the sum of
the `amount` fields over all transactions, and this common value is the
grand total computed by `totalSpent`. -/
theorem categorySummary_conserves_total (ts : List Transaction)
    (h : ts ≠ []) :
    ((categorySummary ts).map ExpenseSummary.total).sum =
        (ts.map Transaction.amount).sum ∧
    (ts.map Transaction.amount).sum = totalSpent ts := by
  constructor
  · have hperm := (categorySummary_perm ts).map ExpenseSummary.total
    rw [hperm.sum_eq]
    simpa [groupByCategory] using sumTotals_foldl ts []
  · exact (totalSpent_eq_sum_amounts ts).symm

/-- Witness for C1 at the spec's sample list. -/
theorem categorySummary_conserves_total_witness :
    sampleList ≠ [] ∧
    (((categorySummary sampleList).map ExpenseSummary.total).sum =
        (sampleList.map Transaction.amount).sum ∧
     (sampleList.map Transaction.amount).sum = totalSpent sampleList) :=
  ⟨by decide, categorySummary_conserves_total sampleList (by decide)⟩

/-- C5: the summary sequence produced by `categorySummary` is sorted by
total in descending order: every adjacent pair (a, b) satisfies
`a.total ≥ b.total`. -/
theorem categorySummary_sorted_descending (ts : List Transaction) :
    (categorySummary ts).Chain' (fun a b => b.total ≤ a.total) := by
  haveI : IsTotal ExpenseSummary summaryOrder :=
    ⟨fun a b => le_total b.total a.total⟩
  haveI : IsTrans ExpenseSummary summaryOrder :=
    ⟨fun a b c hab hbc => le_trans hbc hab⟩
  exact List.Pairwise.chain'
    (List.sorted_insertionSort summaryOrder (groupByCategory ts))

/-- C6: the sum of the `count` fields over all summaries produced by
`categorySummary` equals the length of the transaction list. -/
theorem categorySummary_counts_length (ts : List Transaction) :
    ((categorySummary ts).map ExpenseSummary.count).sum = ts.length := by
  have hperm := (categorySummary_perm ts).map ExpenseSummary.count
  rw [hperm.sum_eq]
  simpa [groupByCategory] using sumCounts_foldl ts []

/-- C7: the categories in the output of `categorySummary` are pairwise
distinct and are exactly the categories occurring in the list; the empty
list yields an empty summary sequence and grand total 0. -/
theorem categorySummary_categories_exact (ts : List Transaction) :
    ((categorySummary ts).map ExpenseSummary.category).Nodup ∧
    (∀ c : Category,
        c ∈ (categorySummary ts).map ExpenseSummary.category ↔
          c ∈ ts.map Transaction.category) ∧
    categorySummary [] = [] ∧
    totalSpent [] = 0 := by
  have hperm := (categorySummary_perm ts).map ExpenseSummary.category
  refine ⟨?_, ?_, rfl, rfl⟩
  · exact hperm.nodup_iff.mpr (cats_foldl_nodup ts [] (by simp))
  · intro c
    rw [hperm.mem_iff]
    simpa [groupByCategory] using cats_foldl_mem ts [] c

/-! ## Claims about the session-state transitions -/

/-- C3: a failing analyze operation leaves the transaction list exactly
as it was, records an error message (the thrown message, or the fallback
when that message is empty), and ends the loading state. -/
theorem processAnalysis_failure_state (s : SessionState) (msg : String) :
    (processAnalysis s (.error msg)).transactions = s.transactions ∧
    (processAnalysis s (.error msg)).error =
      some (if msg = "" then "An error occurred during analysis." else msg) ∧
    (processAnalysis s (.error msg)).loading = false :=
  ⟨rfl, rfl, rfl⟩

/-- C4: a successful analyze result is appended to the prior list in
order, and two consecutive successful calls starting from an empty list
yield the first batch followed by the second. -/
theorem processAnalysis_success_appends (s : SessionState)
    (r : AnalysisResult) (s0 : SessionState) (r1 r2 : AnalysisResult)
    (h : s0.transactions = []) :
    (processAnalysis s (.ok r)).transactions =
        s.transactions ++ r.transactions ∧
    (processAnalysis (processAnalysis s0 (.ok r1)) (.ok r2)).transactions =
        r1.transactions ++ r2.transactions := by
  constructor
  · rfl
  · simp [processAnalysis, h]

/-- The empty session state at session start. -/
def initialSession : SessionState :=
  ⟨[], false, none, ""⟩

/-- Sample successful analysis results used as concrete batches. -/
def sampleResult1 : AnalysisResult :=
  ⟨[sampleFood1, sampleShopping], 1700, "INR"⟩

/-- A second sample batch. -/
def sampleResult2 : AnalysisResult :=
  ⟨[sampleFood2], 300, "INR"⟩

/-- Witness for C4: two consecutive successful calls from the empty
session yield the first batch followed by the second. -/
theorem processAnalysis_success_appends_witness :
    initialSession.transactions = [] ∧
    ((processAnalysis initialSession (.ok sampleResult1)).transactions =
        initialSession.transactions ++ sampleResult1.transactions ∧
     (processAnalysis (processAnalysis initialSession (.ok sampleResult1))
        (.ok sampleResult2)).transactions =
        sampleResult1.transactions ++ sampleResult2.transactions) :=
  ⟨rfl, processAnalysis_success_appends initialSession sampleResult1
    initialSession sampleResult1 sampleResult2 rfl⟩

/-- C8: the confirmed reset leaves the transaction list empty, whatever
the prior session state held. -/
theorem clearData_confirmed_empties (s : SessionState) :
    (clearData true s).transactions = [] :=
  rfl

/-- C9: an analyze trigger with missing input — pasted text that trims to
empty, or no file selected — issues no request and leaves the session
state (transaction list, error, loading, pasted text) unchanged. -/
theorem missing_input_is_ignored (s : SessionState)
    (outcome : Except String AnalysisResult)
    (h : jsTrim s.pastedText = "") :
    handlePasteSubmit s outcome = (s, none) ∧
    ∀ (s2 : SessionState) (out2 : Except String AnalysisResult),
      handleFileUpload s2 none out2 = (s2, none) := by
  constructor
  · simp [handlePasteSubmit, h]
  · intro s2 out2
    rfl

/-- A session state whose pasted text is whitespace only. -/
def whitespaceSession : SessionState :=
  ⟨[sampleFood1], false, none, "   "⟩

/-- Witness for C9 at a whitespace-only pasted text. -/
theorem missing_input_is_ignored_witness :
    jsTrim whitespaceSession.pastedText = "" ∧
    (handlePasteSubmit whitespaceSession (.ok sampleResult1) =
        (whitespaceSession, none) ∧
     ∀ (s2 : SessionState) (out2 : Except String AnalysisResult),
       handleFileUpload s2 none out2 = (s2, none)) :=
  ⟨by decide, missing_input_is_ignored whitespaceSession (.ok sampleResult1)
    (by decide)⟩

/-! ## Claims about the external-service client -/

/-- A payload that is valid JSON yet violates the response schema: its
single transaction item lacks the required `date` and `merchant` fields
and carries the category value "Groceries", which is outside the closed
8-label enumeration. -/
def badPayload : Json :=
  .obj
    [("transactions",
        .arr [.obj [("id", .str "tx-1"), ("amount", .num 250),
                    ("category", .str "Groceries")]]),
     ("totalAmount", .num 250)]

/-- C2 counterexample: `badPayload` does not conform to the
`responseSchema`, yet `analyzeStatement` returns it as a successful
result instead of an `AnalysisFailure` — `JSON.parse` is followed by a
compile-time cast only, with no runtime validation. -/
theorem analyzeStatement_accepts_nonconforming_payload :
    conformsToAnalysisResult badPayload = false ∧
    analyzeStatement (.parsed badPayload) = .ok badPayload :=
  ⟨rfl, rfl⟩

/-- C2 (amended): `analyzeStatement` yields the `AnalysisFailure` error
when the external call throws or the response text fails to parse as
JSON; but any successfully parsed payload is returned as a successful
result without validation, even when it deviates from the
`AnalysisResult` schema. -/
theorem analyzeStatement_failure_only_at_parse (j : Json)
    (h : conformsToAnalysisResult j = false) :
    analyzeStatement .callError = .error analysisFailureMessage ∧
    analyzeStatement .unparseable = .error analysisFailureMessage ∧
    analyzeStatement (.parsed j) = .ok j :=
  ⟨rfl, rfl, rfl⟩

/-- Witness for the amended C2 at the nonconforming payload. -/
theorem analyzeStatement_failure_only_at_parse_witness :
    conformsToAnalysisResult badPayload = false ∧
    (analyzeStatement .callError = .error analysisFailureMessage ∧
     analyzeStatement .unparseable = .error analysisFailureMessage ∧
     analyzeStatement (.parsed badPayload) = .ok badPayload) :=
  ⟨rfl, analyzeStatement_failure_only_at_parse badPayload rfl⟩

/-- C10: every failure of `analyzeStatement`, whatever its cause, carries
the one fixed user-facing message, so distinct failure causes are
indistinguishable to the caller. -/
theorem analyzeStatement_single_failure_message (resp : ParsedResponse)
    (msg : String) (h : analyzeStatement resp = .error msg) :
    msg = "Failed to analyze statement. Please ensure the input is clear." ∧
    analyzeStatement .callError = analyzeStatement .unparseable := by
  refine ⟨?_, rfl⟩
  cases resp with
  | callError =>
      simpa [analyzeStatement, analysisFailureMessage, eq_comm] using h
  | unparseable =>
      simpa [analyzeStatement, analysisFailureMessage, eq_comm] using h
  | parsed j =>
      simp [analyzeStatement] at h

/-- Witness for C10 at a failing call. -/
theorem analyzeStatement_single_failure_message_witness :
    analyzeStatement .callError = .error analysisFailureMessage ∧
    ("Failed to analyze statement. Please ensure the input is clear." =
        "Failed to analyze statement. Please ensure the input is clear." ∧
     analyzeStatement .callError = analyzeStatement .unparseable) :=
  ⟨rfl, analyzeStatement_single_failure_message .callError
    analysisFailureMessage rfl⟩
